import Mathlib

/-!
Verification development for the Ruskey interpreter (a Rust implementation of
the Monkey language): lexer, Pratt parser, AST printing, runtime object model,
environments, and the tree-walking evaluator, shallowly embedded in Lean.

Conventions of the embedding:
* Source text is modelled as its byte sequence (`List Nat`); every input
  considered here is ASCII, where Rust's `as_bytes` agrees with mapping
  `Char.toNat` over the characters.
* Rust `i64` values are modelled as unbounded `Int` together with explicit
  models of the panicking primitives (`/` panics on a zero divisor and on
  `i64::MIN / -1`; `+`, `-`, `*` and unary `-` panic on overflow, as in a
  debug build, which is how the repository's test suite runs).
* Fallible or panicking computations return a `Res` value; possibly
  non-terminating recursion (the evaluator can recurse through function
  values, the parser through nested expressions) is indexed by explicit fuel,
  with `Res.fuelOut` for exhaustion.  For every concrete run below the fuel is
  chosen large enough that it is not exhausted.
* `Rc<RefCell<Environment>>` values are never mutated through the `RefCell`
  anywhere in the source (only freshly created, cloned as `Rc` handles, and
  read), so environments are modelled as immutable values; the one mutable
  current environment (`&mut Environment` in Rust) is threaded explicitly.
-/

/-! ## Token model (src/token.rs)

`TokenType::String` is produced by src/lexer.rs but the variant is missing
from the `TokenType` declaration in src/token.rs as given; the variant is
modelled from the spec ("string" belongs to the fixed tag set of token kinds).
Lean keywords force the `Kw` suffix on some constructor names.  -/

inductive TokenType where
  | illegal
  | eof
  | ident
  | int
  | assign
  | plus
  | minus
  | bang
  | asterisk
  | slash
  | lt
  | gt
  | eq
  | notEq
  | comma
  | semicolon
  | lparen
  | rparen
  | lbrace
  | rbrace
  | functionKw
  | letKw
  | trueKw
  | falseKw
  | ifKw
  | elseKw
  | returnKw
  | string
  deriving DecidableEq, Repr

/-- Token: a token type tag together with the literal source text. -/
structure Token where
  tokenType : TokenType
  literal : String
  deriving DecidableEq, Repr

/-- Token::lookup_ident - keyword table. -/
def lookupIdent (s : String) : TokenType :=
  if s = "fn" then .functionKw
  else if s = "let" then .letKw
  else if s = "true" then .trueKw
  else if s = "false" then .falseKw
  else if s = "if" then .ifKw
  else if s = "else" then .elseKw
  else if s = "return" then .returnKw
  else .ident

/-- Rust `{:?}` (Debug) rendering of a TokenType, used in parser error
messages. -/
def tokenTypeDebug : TokenType → String
  | .illegal => "Illegal"
  | .eof => "Eof"
  | .ident => "Ident"
  | .int => "Int"
  | .assign => "Assign"
  | .plus => "Plus"
  | .minus => "Minus"
  | .bang => "Bang"
  | .asterisk => "Asterisk"
  | .slash => "Slash"
  | .lt => "Lt"
  | .gt => "Gt"
  | .eq => "Eq"
  | .notEq => "NotEq"
  | .comma => "Comma"
  | .semicolon => "Semicolon"
  | .lparen => "Lparen"
  | .rparen => "Rparen"
  | .lbrace => "Lbrace"
  | .rbrace => "Rbrace"
  | .functionKw => "Function"
  | .letKw => "Let"
  | .trueKw => "True"
  | .falseKw => "False"
  | .ifKw => "If"
  | .elseKw => "Else"
  | .returnKw => "Return"
  | .string => "String"

/-! ## Lexer (src/lexer.rs) -/

/-- Lexer state: input bytes, `position`, `read_position` and the current
byte `ch` (0 encodes end of input, as in the source). -/
structure LexerState where
  input : List Nat
  position : Nat
  readPos : Nat
  ch : Nat
  deriving DecidableEq, Repr

/-- ASCII bytes of a string (the inputs treated here are all ASCII, where
this agrees with Rust `str::as_bytes`). -/
def strBytes (s : String) : List Nat := s.toList.map Char.toNat

/-- Bytes back to a string (ASCII). -/
def bytesToString (bs : List Nat) : String := String.mk (bs.map Char.ofNat)

/-- Lexer::read_char. -/
def readChar (l : LexerState) : LexerState :=
  { input := l.input
    position := l.readPos
    readPos := l.readPos + 1
    ch := if l.readPos ≥ l.input.length then 0 else l.input.getD l.readPos 0 }

/-- Lexer::peek_char. -/
def peekChar (l : LexerState) : Nat :=
  if l.readPos ≥ l.input.length then 0 else l.input.getD l.readPos 0

/-- Lexer::new. -/
def lexerNew (s : String) : LexerState :=
  readChar { input := strBytes s, position := 0, readPos := 0, ch := 0 }

/-- is_digit: ASCII digit or underscore (src/lexer.rs lines 150-152). -/
def isDigitByte (c : Nat) : Bool :=
  (48 ≤ c && c ≤ 57) || c = 95

/-- is_letter: ASCII alphabetic or underscore. -/
def isLetterByte (c : Nat) : Bool :=
  (65 ≤ c && c ≤ 90) || (97 ≤ c && c ≤ 122) || c = 95

/-- u8::is_ascii_whitespace: space, tab, newline, form feed, carriage
return. -/
def isWhitespaceByte (c : Nat) : Bool :=
  c = 32 || c = 9 || c = 10 || c = 12 || c = 13

/-- Loop of Lexer::skip_whitespace (each iteration advances `position`, so
`input.length + 1` fuel always suffices). -/
def skipWhitespaceAux : Nat → LexerState → LexerState
  | 0, l => l
  | n + 1, l => if isWhitespaceByte l.ch then skipWhitespaceAux n (readChar l) else l

/-- Lexer::skip_whitespace. -/
def skipWhitespace (l : LexerState) : LexerState :=
  skipWhitespaceAux (l.input.length + 1) l

/-- Loop of Lexer::read_identifier. -/
def readIdentifierAux : Nat → LexerState → LexerState
  | 0, l => l
  | n + 1, l =>
    if decide (l.position < l.input.length) && isLetterByte l.ch then
      readIdentifierAux n (readChar l)
    else l

/-- Lexer::read_identifier: the traversed slice of the input together with
the advanced lexer. -/
def readIdentifier (l : LexerState) : String × LexerState :=
  let l' := readIdentifierAux (l.input.length + 1) l
  (bytesToString ((l'.input.drop l.position).take (l'.position - l.position)), l')

/-- Loop of Lexer::read_numbers. -/
def readNumbersAux : Nat → LexerState → LexerState
  | 0, l => l
  | n + 1, l =>
    if decide (l.position < l.input.length) && isDigitByte l.ch then
      readNumbersAux n (readChar l)
    else l

/-- Lexer::read_numbers. -/
def readNumbers (l : LexerState) : String × LexerState :=
  let l' := readNumbersAux (l.input.length + 1) l
  (bytesToString ((l'.input.drop l.position).take (l'.position - l.position)), l')

/-- Loop of Lexer::read_string: advance, stop after a closing quote (34) or
end of input (0). -/
def readStringAux : Nat → LexerState → LexerState
  | 0, l => l
  | n + 1, l =>
    let l' := readChar l
    if l'.ch = 34 || l'.ch = 0 then l' else readStringAux n l'

/-- Lexer::read_string: the text strictly between the quotes. -/
def readStringLit (l : LexerState) : String × LexerState :=
  let start := l.position + 1
  let l' := readStringAux (l.input.length + 1) l
  (bytesToString ((l'.input.drop start).take (l'.position - start)), l')

/-- Lexer::next_token.  Byte codes: 34 `"`, 61 `=`, 33 `!`, 43 `+`, 45 `-`,
47 `/`, 42 `*`, 60 `<`, 62 `>`, 40 `(`, 41 `)`, 123 left brace, 125 right
brace, 44 `,`, 59 `;`. -/
def nextToken (l0 : LexerState) : Token × LexerState :=
  let l := skipWhitespace l0
  if l.ch = 34 then
    let (lit, l') := readStringLit l
    (⟨.string, lit⟩, readChar l')
  else if l.ch = 61 then
    if peekChar l = 61 then (⟨.eq, "=="⟩, readChar (readChar l))
    else (⟨.assign, "="⟩, readChar l)
  else if l.ch = 33 then
    if peekChar l = 61 then (⟨.notEq, "!="⟩, readChar (readChar l))
    else (⟨.bang, "!"⟩, readChar l)
  else if l.ch = 43 then (⟨.plus, "+"⟩, readChar l)
  else if l.ch = 45 then (⟨.minus, "-"⟩, readChar l)
  else if l.ch = 47 then (⟨.slash, "/"⟩, readChar l)
  else if l.ch = 42 then (⟨.asterisk, "*"⟩, readChar l)
  else if l.ch = 60 then (⟨.lt, "<"⟩, readChar l)
  else if l.ch = 62 then (⟨.gt, ">"⟩, readChar l)
  else if l.ch = 40 then (⟨.lparen, "("⟩, readChar l)
  else if l.ch = 41 then (⟨.rparen, ")"⟩, readChar l)
  else if l.ch = 123 then (⟨.lbrace, "\x7b"⟩, readChar l)
  else if l.ch = 125 then (⟨.rbrace, "\x7d"⟩, readChar l)
  else if l.ch = 44 then (⟨.comma, ","⟩, readChar l)
  else if l.ch = 59 then (⟨.semicolon, ";"⟩, readChar l)
  else if l.ch = 0 then (⟨.eof, ""⟩, readChar l)
  else if isLetterByte l.ch then
    let (lit, l') := readIdentifier l
    (⟨lookupIdent lit, lit⟩, l')
  else if isDigitByte l.ch then
    let (lit, l') := readNumbers l
    (⟨.int, lit⟩, l')
  else (⟨.illegal, ""⟩, readChar l)

/-- Collect all tokens up to and including the first end-of-input token, as
the repl's lexer mode does. -/
def lexTokens : Nat → LexerState → List Token
  | 0, _ => []
  | n + 1, l =>
    let (t, l') := nextToken l
    if t.tokenType = .eof then [t] else t :: lexTokens n l'


/-! ## AST (src/ast.rs)

Every node in the source carries its originating `Token`; those token fields
only duplicate fixed keyword text ("let", "return", "fn", braces) or the
literal text already held in the node's own fields, and no code path reads
them apart from `token_literal`, so they are omitted here.  `Identifier`
nodes are represented by their string value (their token literal is that same
string).  `StringLiteral` is referenced by src/evaluator.rs but its
declaration is missing from src/src/ast.rs as given; the node is modelled
from the spec: StringLiteral carries its string value. -/

mutual
inductive Statement where
  | letStatement (name : String) (value : Option Expression)
  | returnStatement (returnValue : Option Expression)
  | expressionStatement (expression : Expression)

inductive Expression where
  | identifier (value : String)
  | integerLiteral (value : Int)
  | stringLiteral (value : String)
  | boolean (value : Bool)
  | prefixExpression (operator : String) (right : Expression)
  | infixExpression (left : Expression) (operator : String) (right : Expression)
  | ifExpression (condition : Expression) (consequence : BlockStatement)
      (alternative : Option BlockStatement)
  | functionLiteral (parameters : List String) (body : BlockStatement)
  | callExpression (function : Expression) (arguments : List Expression)
  | dummyExpression

inductive BlockStatement where
  | mk (statements : List Statement)
end

/-- Program: the root node. -/
structure Program where
  statements : List Statement

/-- The statements of a block. -/
def BlockStatement.statements : BlockStatement → List Statement
  | .mk ss => ss

/-- impl Clone for BlockStatement (src/ast.rs lines 536-543): the token is
cloned but the statements vector is replaced by `Vec::new()`, so a cloned
block is always empty. -/
def blockClone (_b : BlockStatement) : BlockStatement := BlockStatement.mk []

/-- Decimal rendering of an `i64` value (Rust `{}` for i64), kept
kernel-computable. -/
def intToString (i : Int) : String :=
  if i < 0 then "-" ++ Nat.repr i.natAbs else Nat.repr i.natAbs

/-- `Vec<String>::join(", ")`. -/
def joinComma : List String → String
  | [] => ""
  | [s] => s
  | s :: rest => s ++ ", " ++ joinComma rest

/-! Display impls of src/ast.rs, as mutually recursive printers.  The
`dyn Statement` / `dyn Expression` Display impls dispatch on the concrete
node type, which the `match` below mirrors; a `StringLiteral` has no
Display impl in the source and falls back to its token literal, which equals
its value. -/

mutual
def statementToString : Statement → String
  | .letStatement name value =>
    "let " ++ name ++ " = " ++
      (match value with
       | some v => expressionToString v
       | none => "") ++ ";"
  | .returnStatement rv =>
    "return " ++
      (match rv with
       | some v => expressionToString v
       | none => "") ++ ";"
  | .expressionStatement e => expressionToString e

def expressionToString : Expression → String
  | .identifier v => v
  | .integerLiteral v => intToString v
  | .stringLiteral v => v
  | .boolean v => if v then "true" else "false"
  | .prefixExpression op r => "(" ++ op ++ expressionToString r ++ ")"
  | .infixExpression l op r =>
    "(" ++ expressionToString l ++ " " ++ op ++ " " ++ expressionToString r ++ ")"
  | .ifExpression c cons alt =>
    "if" ++ expressionToString c ++ " " ++ blockToString cons ++
      (match alt with
       | some a => "else " ++ blockToString a
       | none => "")
  | .functionLiteral params body =>
    "fn" ++ "(" ++ joinComma params ++ ") " ++ blockToString body
  | .callExpression f args =>
    expressionToString f ++ "(" ++ joinExpressions args ++ ")"
  | .dummyExpression => ""

def joinExpressions : List Expression → String
  | [] => ""
  | [e] => expressionToString e
  | e :: rest => expressionToString e ++ ", " ++ joinExpressions rest

def blockToString : BlockStatement → String
  | .mk stmts => "\x7b " ++ statementsToString stmts ++ " \x7d"

def statementsToString : List Statement → String
  | [] => ""
  | s :: rest => statementToString s ++ statementsToString rest
end

/-- impl Display for Program: concatenation of its statements' renderings. -/
def programToString (p : Program) : String :=
  statementsToString p.statements

/-! ## Model of Rust's `str::parse::<i64>` (i64's FromStr)

External library behavior used by src/parser.rs `parse_integer_literal`: an
optional leading `+`/`-` sign followed by one or more ASCII decimal digits,
and the value must fit in the signed 64-bit range; anything else (empty
string, underscores, other characters, out-of-range magnitude) fails. -/

def parseI64 (s : String) : Option Int :=
  match s.toList with
  | [] => none
  | c :: rest =>
    let signed : Bool × List Char :=
      if c = '-' then (true, rest)
      else if c = '+' then (false, rest)
      else (false, c :: rest)
    let ds := signed.2
    if ds = [] then none
    else if ds.all Char.isDigit then
      let mag : Int := ds.foldl (fun acc d => acc * 10 + (Int.ofNat d.toNat - 48)) 0
      let v : Int := if signed.1 then -mag else mag
      if -(2 ^ 63) ≤ v ∧ v ≤ 2 ^ 63 - 1 then some v else none
    else none


/-! ## Parser (src/parser.rs) -/

/-- Parser state: lexer, current token, one-token lookahead, accumulated
error strings (the two Pratt dispatch tables are fixed at `Parser::new` and
are modelled by `hasPrefixParseFn` / `hasInfixParseFn` plus the dispatch
matches below). -/
structure PState where
  lexer : LexerState
  curToken : Token
  peekToken : Token
  errors : List String

/-- Parser::new: pull two tokens to fill current and peek. -/
def parserNew (l : LexerState) : PState :=
  let (cur, l1) := nextToken l
  let (peek, l2) := nextToken l1
  { lexer := l2, curToken := cur, peekToken := peek, errors := [] }

/-- Parser::next_token. -/
def nextTokenP (st : PState) : PState :=
  let (t, l') := nextToken st.lexer
  { st with lexer := l', curToken := st.peekToken, peekToken := t }

/-- Operator precedence levels (the `prefixP` name stands for the source's
unary-prefix level). -/
inductive Precedence where
  | lowest
  | equalsP
  | lessGreater
  | sum
  | product
  | prefixP
  | call
  deriving DecidableEq, Repr

/-- Numeric rank of a precedence, realizing the derived PartialOrd of the
Rust enum (declaration order). -/
def precRank : Precedence → Nat
  | .lowest => 0
  | .equalsP => 1
  | .lessGreater => 2
  | .sum => 3
  | .product => 4
  | .prefixP => 5
  | .call => 6

/-- `<` on precedences. -/
def precLt (a b : Precedence) : Bool := precRank a < precRank b

/-- Precedence::from_token_type. -/
def precedenceFromTokenType : TokenType → Precedence
  | .eq => .equalsP
  | .notEq => .equalsP
  | .lt => .lessGreater
  | .gt => .lessGreater
  | .plus => .sum
  | .minus => .sum
  | .slash => .product
  | .asterisk => .product
  | .lparen => .call
  | _ => .lowest

/-- Parser::peek_precedence. -/
def peekPrecedence (st : PState) : Precedence :=
  precedenceFromTokenType st.peekToken.tokenType

/-- Parser::cur_precedence. -/
def curPrecedence (st : PState) : Precedence :=
  precedenceFromTokenType st.curToken.tokenType

/-- Parser::peek_token_is. -/
def peekTokenIs (st : PState) (t : TokenType) : Bool :=
  st.peekToken.tokenType = t

/-- Parser::cur_token_is. -/
def curTokenIs (st : PState) (t : TokenType) : Bool :=
  st.curToken.tokenType = t

/-- Parser::peek_error. -/
def peekError (st : PState) (t : TokenType) : PState :=
  { st with errors := st.errors ++
      ["expected next token to be " ++ tokenTypeDebug t ++ ", got " ++
        tokenTypeDebug st.peekToken.tokenType ++ " instead"] }

/-- Parser::expect_peek. -/
def expectPeek (st : PState) (t : TokenType) : Bool × PState :=
  if peekTokenIs st t then (true, nextTokenP st) else (false, peekError st t)

/-- Parser::no_prefix_parse_fn_error. -/
def noPrefixParseFnError (st : PState) (t : TokenType) : PState :=
  { st with errors := st.errors ++
      ["no prefix parse function for " ++ tokenTypeDebug t ++ " found"] }

/-- The set of token types with a registered prefix parse function
(Parser::new, src/parser.rs lines 78-87). `TokenType::String` is notably
absent. -/
def hasPrefixParseFn : TokenType → Bool
  | .int => true
  | .bang => true
  | .minus => true
  | .trueKw => true
  | .falseKw => true
  | .lparen => true
  | .ifKw => true
  | .ident => true
  | .functionKw => true
  | _ => false

/-- The set of token types with a registered infix parse function
(Parser::new, src/parser.rs lines 89-98). -/
def hasInfixParseFn : TokenType → Bool
  | .plus => true
  | .minus => true
  | .slash => true
  | .asterisk => true
  | .eq => true
  | .notEq => true
  | .lt => true
  | .gt => true
  | .lparen => true
  | _ => false

/-- Parser::parse_integer_literal: try Rust i64 parsing of the current
token's literal; on failure record "could not parse <text> as integer" and
yield no expression. -/
def parseIntegerLiteral (st : PState) : Option Expression × PState :=
  match parseI64 st.curToken.literal with
  | some v => (some (.integerLiteral v), st)
  | none =>
    (none, { st with errors := st.errors ++
        ["could not parse " ++ st.curToken.literal ++ " as integer"] })

/-- Parser::parse_identifier. -/
def parseIdentifier (st : PState) : Option Expression × PState :=
  (some (.identifier st.curToken.literal), st)

/-- Parser::parse_boolean. -/
def parseBoolean (st : PState) : Option Expression × PState :=
  (some (.boolean (curTokenIs st .trueKw)), st)

/-! The recursive parsing productions.  Rust ties the recursion through the
dispatch tables; here each production takes explicit fuel and every nested
call runs at one unit less, so the group is structurally recursive on the
fuel.  Fuel exhaustion yields the production's failure value; all fuel
values used in the theorems below are large enough that exhaustion never
occurs. -/

mutual
/-- Loop of Parser::parse_program: parse statements until EOF, advancing
unconditionally after each attempt. -/
def parseProgramLoop : Nat → PState → List Statement × PState
  | 0, st => ([], st)
  | n + 1, st =>
    if curTokenIs st .eof then ([], st)
    else
      let (stmtOpt, st1) := parseStatement n st
      let st2 := nextTokenP st1
      let (rest, st3) := parseProgramLoop n st2
      ((match stmtOpt with
        | some s => s :: rest
        | none => rest), st3)

/-- Parser::parse_statement: dispatch on the current token. -/
def parseStatement : Nat → PState → Option Statement × PState
  | 0, st => (none, st)
  | n + 1, st =>
    match st.curToken.tokenType with
    | .letKw => parseLetStatement n st
    | .returnKw => parseReturnStatement n st
    | _ => parseExpressionStatement n st

/-- Parser::parse_let_statement. -/
def parseLetStatement : Nat → PState → Option Statement × PState
  | 0, st => (none, st)
  | n + 1, st =>
    let (ok1, st1) := expectPeek st .ident
    if ok1 then
      let name := st1.curToken.literal
      let (ok2, st2) := expectPeek st1 .assign
      if ok2 then
        let st3 := nextTokenP st2
        let (value, st4) := parseExpression n .lowest st3
        let st5 := if peekTokenIs st4 .semicolon then nextTokenP st4 else st4
        (some (.letStatement name value), st5)
      else (none, st2)
    else (none, st1)

/-- Parser::parse_return_statement: the value expression is optional. -/
def parseReturnStatement : Nat → PState → Option Statement × PState
  | 0, st => (none, st)
  | n + 1, st =>
    let st1 := nextTokenP st
    let (rv, st2) := parseExpression n .lowest st1
    let st3 := if peekTokenIs st2 .semicolon then nextTokenP st2 else st2
    (some (.returnStatement rv), st3)

/-- Parser::parse_expression_statement. -/
def parseExpressionStatement : Nat → PState → Option Statement × PState
  | 0, st => (none, st)
  | n + 1, st =>
    match parseExpression n .lowest st with
    | (some e, st1) =>
      let st2 := if peekTokenIs st1 .semicolon then nextTokenP st1 else st1
      (some (.expressionStatement e), st2)
    | (none, st1) => (none, st1)

/-- Parser::parse_expression: look up the prefix function for the current
token (recording the no-prefix error when absent), then run the Pratt
loop. -/
def parseExpression : Nat → Precedence → PState → Option Expression × PState
  | 0, _, st => (none, st)
  | n + 1, prec, st =>
    if hasPrefixParseFn st.curToken.tokenType then
      let (leftExp, st1) := callPrefixFn n st.curToken.tokenType st
      parseExpressionLoop n prec leftExp st1
    else
      (none, noPrefixParseFnError st st.curToken.tokenType)

/-- The `while` loop inside Parser::parse_expression: while the upcoming
token is not a semicolon and binds strictly tighter than `prec`, extend the
left expression with its infix function (if it has none, stop); note the
source advances onto the operator before inspecting the left expression, and
abandons the loop when the left expression is `None`. -/
def parseExpressionLoop :
    Nat → Precedence → Option Expression → PState → Option Expression × PState
  | 0, _, left, st => (left, st)
  | n + 1, prec, left, st =>
    if !peekTokenIs st .semicolon && precLt prec (peekPrecedence st) then
      if hasInfixParseFn st.peekToken.tokenType then
        let st1 := nextTokenP st
        match left with
        | some le =>
          let (left', st2) := callInfixFn n st1.curToken.tokenType le st1
          parseExpressionLoop n prec left' st2
        | none => (none, st1)
      else (left, st)
    else (left, st)

/-- Dispatch through the prefix parse function table (registrations of
Parser::new); only called for token types where `hasPrefixParseFn` holds. -/
def callPrefixFn : Nat → TokenType → PState → Option Expression × PState
  | 0, _, st => (none, st)
  | _ + 1, .int, st => parseIntegerLiteral st
  | n + 1, .bang, st => parsePrefixExpression n st
  | n + 1, .minus, st => parsePrefixExpression n st
  | _ + 1, .trueKw, st => parseBoolean st
  | _ + 1, .falseKw, st => parseBoolean st
  | n + 1, .lparen, st => parseGroupedExpression n st
  | n + 1, .ifKw, st => parseIfExpression n st
  | _ + 1, .ident, st => parseIdentifier st
  | n + 1, .functionKw, st => parseFunctionLiteral n st
  | _ + 1, _, st => (none, st)

/-- Dispatch through the infix parse function table (registrations of
Parser::new); only called for token types where `hasInfixParseFn` holds. -/
def callInfixFn : Nat → TokenType → Expression → PState → Option Expression × PState
  | 0, _, _, st => (none, st)
  | n + 1, .lparen, left, st => parseCallExpression n left st
  | n + 1, .plus, left, st => parseInfixExpression n left st
  | n + 1, .minus, left, st => parseInfixExpression n left st
  | n + 1, .slash, left, st => parseInfixExpression n left st
  | n + 1, .asterisk, left, st => parseInfixExpression n left st
  | n + 1, .eq, left, st => parseInfixExpression n left st
  | n + 1, .notEq, left, st => parseInfixExpression n left st
  | n + 1, .lt, left, st => parseInfixExpression n left st
  | n + 1, .gt, left, st => parseInfixExpression n left st
  | _ + 1, _, _, st => (none, st)

/-- Parser::parse_prefix_expression. -/
def parsePrefixExpression : Nat → PState → Option Expression × PState
  | 0, st => (none, st)
  | n + 1, st =>
    let op := st.curToken.literal
    let st1 := nextTokenP st
    match parseExpression n .prefixP st1 with
    | (some r, st2) => (some (.prefixExpression op r), st2)
    | (none, st2) => (none, st2)

/-- Parser::parse_infix_expression. -/
def parseInfixExpression : Nat → Expression → PState → Option Expression × PState
  | 0, _, st => (none, st)
  | n + 1, left, st =>
    let op := st.curToken.literal
    let prec := curPrecedence st
    let st1 := nextTokenP st
    match parseExpression n prec st1 with
    | (some r, st2) => (some (.infixExpression left op r), st2)
    | (none, st2) => (none, st2)

/-- Parser::parse_grouped_expression. -/
def parseGroupedExpression : Nat → PState → Option Expression × PState
  | 0, st => (none, st)
  | n + 1, st =>
    let st1 := nextTokenP st
    let (e, st2) := parseExpression n .lowest st1
    let (ok, st3) := expectPeek st2 .rparen
    if ok then (e, st3) else (none, st3)

/-- Parser::parse_if_expression. -/
def parseIfExpression : Nat → PState → Option Expression × PState
  | 0, st => (none, st)
  | n + 1, st =>
    let (ok1, st1) := expectPeek st .lparen
    if ok1 then
      let st2 := nextTokenP st1
      match parseExpression n .lowest st2 with
      | (some cond, st3) =>
        let (ok2, st4) := expectPeek st3 .rparen
        if ok2 then
          let (ok3, st5) := expectPeek st4 .lbrace
          if ok3 then
            let (cons, st6) := parseBlockStatement n st5
            if peekTokenIs st6 .elseKw then
              let st7 := nextTokenP st6
              let (ok4, st8) := expectPeek st7 .lbrace
              if ok4 then
                let (alt, st9) := parseBlockStatement n st8
                (some (.ifExpression cond cons (some alt)), st9)
              else (none, st8)
            else (some (.ifExpression cond cons none), st6)
          else (none, st5)
        else (none, st4)
      | (none, st3) => (none, st3)
    else (none, st1)

/-- Parser::parse_block_statement. -/
def parseBlockStatement : Nat → PState → BlockStatement × PState
  | 0, st => (.mk [], st)
  | n + 1, st =>
    let st1 := nextTokenP st
    let (stmts, st2) := parseBlockLoop n st1
    (.mk stmts, st2)

/-- Loop of Parser::parse_block_statement: parse statements until a closing
brace or EOF. -/
def parseBlockLoop : Nat → PState → List Statement × PState
  | 0, st => ([], st)
  | n + 1, st =>
    if !curTokenIs st .rbrace && !curTokenIs st .eof then
      let (stmtOpt, st1) := parseStatement n st
      let st2 := nextTokenP st1
      let (rest, st3) := parseBlockLoop n st2
      ((match stmtOpt with
        | some s => s :: rest
        | none => rest), st3)
    else ([], st)

/-- Parser::parse_function_literal. -/
def parseFunctionLiteral : Nat → PState → Option Expression × PState
  | 0, st => (none, st)
  | n + 1, st =>
    let (ok1, st1) := expectPeek st .lparen
    if ok1 then
      match parseFunctionParameters n st1 with
      | (some params, st2) =>
        let (ok2, st3) := expectPeek st2 .lbrace
        if ok2 then
          let (body, st4) := parseBlockStatement n st3
          (some (.functionLiteral params body), st4)
        else (none, st3)
      | (none, st2) => (none, st2)
    else (none, st1)

/-- Parser::parse_function_parameters: parameters are taken from the current
token's literal without checking its type. -/
def parseFunctionParameters : Nat → PState → Option (List String) × PState
  | 0, st => (none, st)
  | n + 1, st =>
    if peekTokenIs st .rparen then (some [], nextTokenP st)
    else
      let st1 := nextTokenP st
      let first := st1.curToken.literal
      let (rest, st2) := parseFunctionParamsLoop n st1
      let (ok, st3) := expectPeek st2 .rparen
      if ok then (some (first :: rest), st3) else (none, st3)

/-- Comma loop of Parser::parse_function_parameters. -/
def parseFunctionParamsLoop : Nat → PState → List String × PState
  | 0, st => ([], st)
  | n + 1, st =>
    if peekTokenIs st .comma then
      let st1 := nextTokenP (nextTokenP st)
      let p := st1.curToken.literal
      let (rest, st2) := parseFunctionParamsLoop n st1
      (p :: rest, st2)
    else ([], st)

/-- Parser::parse_call_expression. -/
def parseCallExpression : Nat → Expression → PState → Option Expression × PState
  | 0, _, st => (none, st)
  | n + 1, left, st =>
    let (args, st1) := parseCallArguments n st
    (some (.callExpression left args), st1)

/-- Parser::parse_call_arguments. -/
def parseCallArguments : Nat → PState → List Expression × PState
  | 0, st => ([], st)
  | n + 1, st =>
    if peekTokenIs st .rparen then ([], nextTokenP st)
    else
      let st1 := nextTokenP st
      let (firstOpt, st2) := parseExpression n .lowest st1
      let firstArgs := (match firstOpt with
        | some a => [a]
        | none => [])
      let (rest, st3) := parseCallArgsLoop n st2
      let (ok, st4) := expectPeek st3 .rparen
      if ok then (firstArgs ++ rest, st4) else ([], st4)

/-- Comma loop of Parser::parse_call_arguments. -/
def parseCallArgsLoop : Nat → PState → List Expression × PState
  | 0, st => ([], st)
  | n + 1, st =>
    if peekTokenIs st .comma then
      let st1 := nextTokenP (nextTokenP st)
      let (aOpt, st2) := parseExpression n .lowest st1
      let (rest, st3) := parseCallArgsLoop n st2
      (((match aOpt with
        | some a => a :: rest
        | none => rest) : List Expression), st3)
    else ([], st)
end

/-- Parser::parse_program, from a parser state. -/
def parseProgram (fuel : Nat) (st : PState) : Program × PState :=
  let (stmts, st') := parseProgramLoop fuel st
  (⟨stmts⟩, st')

/-- Lex and parse a source string, as the repl does: the resulting Program
together with the final parser state (carrying the accumulated errors). -/
def parseSource (fuel : Nat) (s : String) : Program × PState :=
  parseProgram fuel (parserNew (lexerNew s))


/-! ## Runtime objects and environments (src/object.rs, src/environment.rs)

`Rc<RefCell<Environment>>` handles are never written through after creation
anywhere in the source, so an environment is modelled as an immutable value;
`Rc::clone` of a handle is sharing the same value, while
`Environment::clone` (`envClone`) rebuilds the store. -/

/-- ObjectType (src/object.rs). -/
inductive ObjectType where
  | integer
  | string
  | boolean
  | null
  | returnValue
  | function
  | error
  | builtin
  deriving DecidableEq, Repr

/-- impl Display for ObjectType. -/
def typeName : ObjectType → String
  | .integer => "INTEGER"
  | .string => "STRING"
  | .boolean => "BOOLEAN"
  | .null => "NULL"
  | .function => "FUNCTION"
  | .returnValue => "RETURN_VALUE"
  | .error => "ERROR"
  | .builtin => "BUILTIN"

/-- The native callables that can sit inside a Builtin object: the builtin
registry (src/builtins.rs) contains exactly `len`. -/
inductive BuiltinFn where
  | len
  deriving DecidableEq, Repr

mutual
/-- Runtime values (the `dyn Object` trait objects of src/object.rs). -/
inductive Obj where
  | integer (value : Int)
  | string (value : String)
  | boolean (value : Bool)
  | null
  | returnValue (value : Obj)
  | function (parameters : List String) (body : BlockStatement) (env : Env)
  | error (message : String)
  | builtin (func : BuiltinFn)

/-- Environment (src/environment.rs): local bindings plus an optional outer
environment (`Rc<RefCell<Environment>>`, modelled as a value per the note
above). -/
inductive Env where
  | mk (store : List (String × Obj)) (outer : Option Env)
end

/-- Object::type_. -/
def typeOf : Obj → ObjectType
  | .integer _ => .integer
  | .string _ => .string
  | .boolean _ => .boolean
  | .null => .null
  | .returnValue _ => .returnValue
  | .function _ _ _ => .function
  | .error _ => .error
  | .builtin _ => .builtin

/-- is_error (src/evaluator.rs). -/
def isError (o : Obj) : Bool := typeOf o = .error

/-- impl Clone for Box&lt;dyn Object&gt; (src/environment.rs lines 49-83):
integers, booleans, strings and builtins are copied by value; a Function is
rebuilt with a cloned (hence emptied) body and a shared environment handle;
every other variant - Null, and notably ReturnValue and Error, which have no
match arm - becomes a fresh Null. -/
def objClone : Obj → Obj
  | .integer v => .integer v
  | .boolean v => .boolean v
  | .string v => .string v
  | .function ps body env => .function ps (blockClone body) env
  | .builtin f => .builtin f
  | _ => .null

/-- HashMap lookup in a store modelled as an association list whose most
recent insertion comes first. -/
def lookupStore : List (String × Obj) → String → Option Obj
  | [], _ => none
  | (k, v) :: rest, name => if k = name then some v else lookupStore rest name

/-- Environment::get: local store first (returning a clone of the stored
object), then the outer chain. -/
def envGet : Env → String → Option Obj
  | .mk store outer, name =>
    match lookupStore store name with
    | some o => some (objClone o)
    | none =>
      match outer with
      | some out => envGet out name
      | none => none

/-- Environment::set: `store.insert(name, val.clone())` - bind in the local
store only, replacing any previous binding for the name.  (The source also
returns `val` unchanged; callers below use the original value directly.) -/
def envSet (e : Env) (name : String) (val : Obj) : Env :=
  match e with
  | .mk store outer =>
    .mk ((name, objClone val) :: store.filter (fun p => p.1 ≠ name)) outer

/-- impl Clone for Environment (src/environment.rs lines 86-100): clone each
binding in the local store (via `objClone`), share the outer chain. -/
def envClone : Env → Env
  | .mk store outer => .mk (store.map (fun p => (p.1, objClone p.2))) outer

/-- Environment::new. -/
def envNew : Env := .mk [] none

/-- Environment::new_enclosed. -/
def newEnclosed (outer : Env) : Env := .mk [] (some outer)

/-- builtins::len_function. -/
def lenFunction (args : List Obj) : Obj :=
  if args.length ≠ 1 then
    .error ("wrong number of arguments. got=" ++ Nat.repr args.length ++ ", want=1")
  else
    match args with
    | (.string s) :: _ => .integer (Int.ofNat s.length)
    | a :: _ => .error ("argument to `len` not supported, got " ++ typeName (typeOf a))
    | [] => .error "argument to `len` not supported, got "

/-- Dispatch of a Builtin object's native callable. -/
def applyBuiltin : BuiltinFn → List Obj → Obj
  | .len, args => lenFunction args

/-- builtins::get_builtins lookup, followed by `builtin.clone()`. -/
def builtinsGet (name : String) : Option Obj :=
  if name = "len" then some (objClone (.builtin .len)) else none

/-! ## Models of Rust's panicking i64 primitives -/

/-- Smallest i64. -/
def i64Min : Int := -(2 ^ 63)

/-- Largest i64. -/
def i64Max : Int := 2 ^ 63 - 1

/-- Whether a value fits in i64. -/
def inI64 (v : Int) : Bool := i64Min ≤ v && v ≤ i64Max

/-- Result of a computation that may panic (Rust unwinding) or exhaust the
explicit recursion fuel of the embedding. -/
inductive Res (α : Type) where
  | ok (a : α)
  | panic (msg : String)
  | fuelOut

/-- Sequencing that propagates panics and fuel exhaustion. -/
def Res.bind {α β : Type} : Res α → (α → Res β) → Res β
  | .ok a, f => f a
  | .panic m, _ => .panic m
  | .fuelOut, _ => .fuelOut

instance : Monad Res where
  pure := Res.ok
  bind := Res.bind

/-- Rust `i64 +` (debug build: panics on overflow). -/
def rustI64Add (a b : Int) : Res Int :=
  if inI64 (a + b) then .ok (a + b) else .panic "attempt to add with overflow"

/-- Rust `i64 -` (debug build: panics on overflow). -/
def rustI64Sub (a b : Int) : Res Int :=
  if inI64 (a - b) then .ok (a - b) else .panic "attempt to subtract with overflow"

/-- Rust `i64 *` (debug build: panics on overflow). -/
def rustI64Mul (a b : Int) : Res Int :=
  if inI64 (a * b) then .ok (a * b) else .panic "attempt to multiply with overflow"

/-- Rust `i64 /`: truncating division; panics on a zero divisor, and on
`i64::MIN / -1` (overflow), in every build profile. -/
def rustI64Div (a b : Int) : Res Int :=
  if b = 0 then .panic "attempt to divide by zero"
  else if a = i64Min ∧ b = -1 then .panic "attempt to divide with overflow"
  else .ok (Int.tdiv a b)

/-- Rust unary `i64 -` (debug build: panics on `i64::MIN`). -/
def rustI64Neg (a : Int) : Res Int :=
  if inI64 (-a) then .ok (-a) else .panic "attempt to negate with overflow"

/-! ## Evaluator (src/evaluator.rs) -/

/-- native_bool_to_boolean_object: the TRUE/FALSE singletons carry no state
beyond their value. -/
def nativeBoolToBooleanObject (b : Bool) : Obj := .boolean b

/-- is_truthy: Null is falsy, a Boolean is its value, everything else is
truthy. -/
def isTruthy : Obj → Bool
  | .null => false
  | .boolean b => b
  | _ => true

/-- The `downcast_ref::<Boolean>().map_or(false, |b| b.value)` used by
eval_infix_expression for its `==`/`!=` fallback. -/
def boolVal : Obj → Bool
  | .boolean b => b
  | _ => false

/-- unwrap_return_value: strip one ReturnValue wrapper, cloning the wrapped
value. -/
def unwrapReturnValue : Obj → Obj
  | .returnValue v => objClone v
  | o => o

/-- The unwrapping of a top-level ReturnValue by eval_program (src/evaluator.rs
lines 64-83): Integer, Boolean and Null are rebuilt from their value; every
other wrapped type falls through to Null. -/
def unwrapProgramReturn : Obj → Obj
  | .integer v => .integer v
  | .boolean b => nativeBoolToBooleanObject b
  | .null => .null
  | _ => .null

/-- eval_identifier: environment lookup, then the builtin table, then the
"identifier not found" error. -/
def evalIdentifier (name : String) (env : Env) : Obj :=
  match envGet env name with
  | some v => v
  | none =>
    match builtinsGet name with
    | some b => b
    | none => .error ("identifier not found: " ++ name)

/-- eval_bang_operator_expression. -/
def evalBangOperatorExpression : Obj → Obj
  | .boolean b => nativeBoolToBooleanObject (!b)
  | .null => nativeBoolToBooleanObject true
  | _ => nativeBoolToBooleanObject false

/-- eval_minus_prefix_operator_expression (the negation itself is the Rust
`-` on i64). -/
def evalMinusPrefixOperatorExpression (r : Obj) : Res Obj :=
  if typeOf r ≠ .integer then
    .ok (.error ("unknown operator: -" ++ typeName (typeOf r)))
  else
    match r with
    | .integer v => do
      let x ← rustI64Neg v
      return Obj.integer x
    | _ => .ok .null

/-- eval_prefix_expression. -/
def evalPrefixExpression (op : String) (r : Obj) : Res Obj :=
  if op = "!" then .ok (evalBangOperatorExpression r)
  else if op = "-" then evalMinusPrefixOperatorExpression r
  else .ok (.error ("unknown operator: " ++ op ++ typeName (typeOf r)))

/-- eval_integer_infix_expression: both operands are unwrapped as Integers
(panicking otherwise, like the source's `.unwrap()`), then the operator is
dispatched; arithmetic uses the Rust i64 primitives, comparisons produce
Booleans, and an unknown operator falls through to Null. -/
def evalIntegerInfixExpression (op : String) (l r : Obj) : Res Obj :=
  match l, r with
  | .integer a, .integer b =>
    if op = "+" then do
      let x ← rustI64Add a b
      return Obj.integer x
    else if op = "-" then do
      let x ← rustI64Sub a b
      return Obj.integer x
    else if op = "*" then do
      let x ← rustI64Mul a b
      return Obj.integer x
    else if op = "/" then do
      let x ← rustI64Div a b
      return Obj.integer x
    else if op = "<" then .ok (nativeBoolToBooleanObject (decide (a < b)))
    else if op = ">" then .ok (nativeBoolToBooleanObject (decide (a > b)))
    else if op = "==" then .ok (nativeBoolToBooleanObject (decide (a = b)))
    else if op = "!=" then .ok (nativeBoolToBooleanObject (decide (a ≠ b)))
    else .ok .null
  | _, _ => .panic "downcast to Integer failed"

/-- eval_string_infix_expression: `+` concatenates; any other operator is an
unknown-operator error. -/
def evalStringInfixExpression (op : String) (l r : Obj) : Res Obj :=
  if op ≠ "+" then
    .ok (.error ("unknown operator: " ++ typeName (typeOf l) ++ " " ++ op ++ " " ++
      typeName (typeOf r)))
  else
    match l, r with
    | .string a, .string b => .ok (.string (a ++ b))
    | _, _ => .panic "downcast to StringObj failed"

/-- eval_infix_expression (src/evaluator.rs lines 305-357): integer-integer
and string-string pairs get their own dispatch; differing runtime types are
a type-mismatch error; then `==`/`!=` compare the operands'
`downcast::<Boolean>().map_or(false, value)` projections; anything else is an
unknown-operator error. -/
def evalInfixExpression (op : String) (l r : Obj) : Res Obj :=
  if typeOf l = .integer ∧ typeOf r = .integer then
    evalIntegerInfixExpression op l r
  else if typeOf l = .string ∧ typeOf r = .string then
    evalStringInfixExpression op l r
  else if typeOf l ≠ typeOf r then
    .ok (.error ("type mismatch: " ++ typeName (typeOf l) ++ " " ++ op ++ " " ++
      typeName (typeOf r)))
  else if op = "==" then
    .ok (nativeBoolToBooleanObject (boolVal l == boolVal r))
  else if op = "!=" then
    .ok (nativeBoolToBooleanObject (boolVal l != boolVal r))
  else
    .ok (.error ("unknown operator: " ++ typeName (typeOf l) ++ " " ++ op ++ " " ++
      typeName (typeOf r)))

/-- Parameter binding of apply_function: bind positionally while both a
parameter and an argument remain (`param_idx < args.len()`); leftover
parameters stay unbound, extra arguments are ignored. -/
def bindParams : List String → List Obj → Env → Env
  | p :: ps, a :: rest, env => bindParams ps rest (envSet env p a)
  | _, _, env => env

/-! The recursive evaluation functions.  As with the parser, the Rust
recursion (which can diverge through function application) is indexed by
explicit fuel; every nested call runs at one unit less and exhaustion yields
`Res.fuelOut`. -/

mutual
/-- eval_expression. -/
def evalExpression : Nat → Expression → Env → Res (Obj × Env)
  | 0, _, _ => .fuelOut
  | n + 1, e, env =>
    match e with
    | .integerLiteral v => .ok (.integer v, env)
    | .stringLiteral v => .ok (.string v, env)
    | .boolean b => .ok (nativeBoolToBooleanObject b, env)
    | .identifier name => .ok (evalIdentifier name env, env)
    | .prefixExpression op r => do
      let (rv, env1) ← evalExpression n r env
      if isError rv then return (rv, env1)
      else do
        let o ← evalPrefixExpression op rv
        return (o, env1)
    | .infixExpression l op r => do
      let (lv, env1) ← evalExpression n l env
      if isError lv then return (lv, env1)
      else do
        let (rv, env2) ← evalExpression n r env1
        if isError rv then return (rv, env2)
        else do
          let o ← evalInfixExpression op lv rv
          return (o, env2)
    | .ifExpression c cons alt => do
      let (cv, env1) ← evalExpression n c env
      if isError cv then return (cv, env1)
      else if isTruthy cv then evalBlockStmts n cons.statements env1
      else
        match alt with
        | some a => evalBlockStmts n a.statements env1
        | none => .ok (.null, env1)
    | .functionLiteral ps body =>
      .ok (.function ps (blockClone body) (envClone env), env)
    | .callExpression f args => do
      let (fv, env1) ← evalExpression n f env
      if isError fv then return (fv, env1)
      else do
        let (argVals, env2) ← evalExpressionList n args env1
        match argVals with
        | a :: rest =>
          if isError a then return (objClone a, env2)
          else do
            let r ← applyFunction n fv (a :: rest)
            return (r, env2)
        | [] => do
          let r ← applyFunction n fv []
          return (r, env2)
    | .dummyExpression => .ok (.null, env)

/-- eval_expressions: left to right, stopping with a singleton vector at the
first Error. -/
def evalExpressionList : Nat → List Expression → Env → Res (List Obj × Env)
  | 0, _, _ => .fuelOut
  | n + 1, es, env =>
    match es with
    | [] => .ok ([], env)
    | e :: rest => do
      let (v, env1) ← evalExpression n e env
      if isError v then return ([v], env1)
      else do
        let (vs, env2) ← evalExpressionList n rest env1
        return (v :: vs, env2)

/-- eval_statement. -/
def evalStatement : Nat → Statement → Env → Res (Obj × Env)
  | 0, _, _ => .fuelOut
  | n + 1, s, env =>
    match s with
    | .expressionStatement e => evalExpression n e env
    | .returnStatement (some e) => do
      let (v, env1) ← evalExpression n e env
      if isError v then return (v, env1)
      else return (Obj.returnValue v, env1)
    | .returnStatement none => .ok (.null, env)
    | .letStatement name (some e) => do
      let (v, env1) ← evalExpression n e env
      if isError v then return (v, env1)
      else return (v, envSet env1 name v)
    | .letStatement _ none => .ok (.null, env)

/-- eval_block_statement: fold the statements, stopping at a ReturnValue or
Error result (returned unchanged). -/
def evalBlockStmts : Nat → List Statement → Env → Res (Obj × Env)
  | 0, _, _ => .fuelOut
  | n + 1, ss, env =>
    match ss with
    | [] => .ok (.null, env)
    | s :: rest => do
      let (r, env1) ← evalStatement n s env
      if typeOf r = .returnValue ∨ typeOf r = .error then return (r, env1)
      else
        match rest with
        | [] => .ok (r, env1)
        | _ => evalBlockStmts n rest env1

/-- eval_program: fold the statements, stopping at the first Error (returned
as is) or ReturnValue (unwrapped by `unwrapProgramReturn`). -/
def evalProgramStmts : Nat → List Statement → Env → Res (Obj × Env)
  | 0, _, _ => .fuelOut
  | n + 1, ss, env =>
    match ss with
    | [] => .ok (.null, env)
    | s :: rest => do
      let (r, env1) ← evalStatement n s env
      if isError r then return (r, env1)
      else
        match r with
        | .returnValue w => .ok (unwrapProgramReturn w, env1)
        | _ =>
          match rest with
          | [] => .ok (r, env1)
          | _ => evalProgramStmts n rest env1

/-- apply_function: a Function gets a fresh environment enclosed in its
captured one with parameters bound positionally, its body evaluated and a
ReturnValue unwrapped; a Builtin's native callable is invoked directly;
anything else is a "not a function" error. -/
def applyFunction : Nat → Obj → List Obj → Res Obj
  | 0, _, _ => .fuelOut
  | n + 1, func, args =>
    match func with
    | .function ps body fenv => do
      let extended := bindParams ps args (newEnclosed fenv)
      let (evaluated, _) ← evalBlockStmts n body.statements extended
      return unwrapReturnValue evaluated
    | .builtin f => .ok (applyBuiltin f args)
    | _ => .ok (.error ("not a function: " ++ typeName (typeOf func)))
end

/-- evaluator::eval / eval_program on a whole Program. -/
def evalProgram (fuel : Nat) (p : Program) (env : Env) : Res (Obj × Env) :=
  evalProgramStmts fuel p.statements env

/-- Parse a source string and evaluate the resulting program in a fresh
environment, as the repl does for an input line (the repl evaluates only
when the parse error list is empty). -/
def runSource (fuel : Nat) (s : String) : Res (Obj × Env) :=
  evalProgram fuel (parseSource fuel s).1 envNew

/-! ## Helper lemmas and projections used by the theorems -/

/-- The evaluated object of a successful run. -/
def resultObj : Res (Obj × Env) → Option Obj
  | .ok (o, _) => some o
  | _ => none

/-- Cloning an object twice is the same as cloning it once. -/
theorem objClone_idem (o : Obj) : objClone (objClone o) = objClone o := by
  cases o <;> rfl

/-- Looking a name up in a store whose bindings were all cloned finds the
clone of what the original lookup finds. -/
theorem lookupStore_map_clone (store : List (String × Obj)) (name : String) :
    lookupStore (store.map (fun p => (p.1, objClone p.2))) name =
      (lookupStore store name).map objClone := by
  induction store with
  | nil => rfl
  | cons p rest ih =>
    cases p with
    | mk k v =>
      by_cases h : k = name
      · simp [lookupStore, h]
      · simp [lookupStore, h, ih]

/-- Looking a name up in an environment built by cloning (as closure capture
does) gives the same answer as looking it up in the original environment. -/
theorem envGet_clone (store : List (String × Obj)) (outer : Option Env) (name : String) :
    envGet (envClone (.mk store outer)) name = envGet (.mk store outer) name := by
  have hm := lookupStore_map_clone store name
  cases outer with
  | none =>
    simp only [envClone]
    rw [envGet.eq_2, envGet.eq_2, hm]
    cases lookupStore store name with
    | none => rfl
    | some o => simp [objClone_idem]
  | some out =>
    simp only [envClone]
    rw [envGet.eq_1, envGet.eq_1, hm]
    cases lookupStore store name with
    | none => rfl
    | some o => simp [objClone_idem]

/-- The closure program of the spec's closure test. -/
def closureSource : String :=
  "let newAdder = fn(x) \x7b fn(y) \x7b x + y \x7d \x7d; let addTwo = newAdder(2); addTwo(3);"

/-- The function-literal-parameter-position string program used for C8. -/
def fnParamSource : String := "fn(\"s\") \x7b\x7d"

/-! ## Claim theorems -/

/-- C1: the spec (and the repository's own test_closures) say the closure
program evaluates to Integer(5), a Function value retaining its literal's
body statements.  The code disagrees: `impl Clone for BlockStatement`
replaces the statements by `Vec::new()`, and FunctionLiteral evaluation
clones the body, so every Function value has an empty body; `newAdder(2)`
therefore evaluates an empty block to Null, and `addTwo(3)` becomes a call
of Null, making the whole program evaluate to the error
"not a function: NULL" instead of Integer(5). -/
theorem c1_code_bug_closure_program_result :
    (parseSource 99 closureSource).2.errors = [] ∧
    resultObj (runSource 99 closureSource) = some (.error "not a function: NULL") ∧
    blockClone (BlockStatement.mk [Statement.expressionStatement
      (Expression.infixExpression (.identifier "x") "+" (.identifier "y"))]) =
      BlockStatement.mk [] :=
  ⟨rfl, rfl, rfl⟩

/-- C2 counterexample: the claim says the Function's captured environment is
the very environment active at the literal's evaluation, held by shared
reference, so that a binding later added by `set` to that environment is
visible through the captured environment.  In the code the capture is
`Rc::new(RefCell::new(env.clone()))`: evaluating a function literal in the
fresh environment captures the clone `Env.mk [] none`, and after `set`
binds "a" in the original environment, the lookup of "a" through the
captured environment still fails. -/
theorem c2_counterexample_capture_is_copied :
    evalExpression 2 (Expression.functionLiteral [] (BlockStatement.mk [])) envNew =
      .ok (.function [] (BlockStatement.mk []) (Env.mk [] none), envNew) ∧
    envGet (envSet envNew "a" (.integer 5)) "a" = some (.integer 5) ∧
    envGet (Env.mk [] none) "a" = none :=
  ⟨rfl, rfl, rfl⟩

/-- C2 amended: evaluating a function literal captures a clone of the
current environment (a fresh copy of the local store over the shared outer
chain, with the body emptied by the BlockStatement clone), not a shared
reference; bindings already present at capture time remain visible through
the clone (lookups agree), but a binding added to the original environment
after capture is not (the capture is a value independent of later sets, as
the counterexample shows). -/
theorem c2_amended_capture_clones_current_env :
    (∀ (n : Nat) (ps : List String) (body : BlockStatement) (env : Env),
      evalExpression (n + 1) (.functionLiteral ps body) env =
        .ok (.function ps (blockClone body) (envClone env), env)) ∧
    (∀ (store : List (String × Obj)) (outer : Option Env) (name : String),
      envGet (envClone (.mk store outer)) name = envGet (.mk store outer) name) := by
  constructor
  · intro n ps body env
    simp [evalExpression]
  · intro store outer name
    exact envGet_clone store outer name

/-- C3 counterexample: the claim says `==` applied to two Null values yields
an Error "unknown operator: NULL == NULL"; in the code the `==` fallback
compares the operands' Boolean projections (both false for Null), so
`null == null` evaluates to Boolean(true), not an error. -/
theorem c3_counterexample_null_eq_null_is_true :
    evalInfixExpression "==" .null .null = .ok (.boolean true) ∧
    Obj.boolean true ≠ Obj.error "unknown operator: NULL == NULL" :=
  ⟨rfl, fun h => Obj.noConfusion h⟩

/-- C3 amended: for same-type operand pairs outside integer-integer and
string-string, the operators `==` and `!=` are supported for every such pair
(not just boolean-boolean): they compare the operands' "is a Boolean with
value true" projections, which is by-value comparison on Booleans but makes
e.g. two Nulls or two Functions compare equal; every other operator on such
pairs yields "unknown operator: <L> <op> <R>", and operands of differing
runtime types always yield "type mismatch: <L> <op> <R>". -/
theorem c3_amended_same_type_infix_dispatch :
    (∀ (l r : Obj) (op : String), typeOf l = typeOf r → ¬typeOf l = .integer →
      ¬typeOf l = .string →
      evalInfixExpression op l r =
        (if op = "==" then .ok (nativeBoolToBooleanObject (boolVal l == boolVal r))
         else if op = "!=" then .ok (nativeBoolToBooleanObject (boolVal l != boolVal r))
         else .ok (.error ("unknown operator: " ++ typeName (typeOf l) ++ " " ++ op ++
           " " ++ typeName (typeOf r))))) ∧
    (∀ (b1 b2 : Bool),
      evalInfixExpression "==" (.boolean b1) (.boolean b2) =
        .ok (nativeBoolToBooleanObject (b1 == b2)) ∧
      evalInfixExpression "!=" (.boolean b1) (.boolean b2) =
        .ok (nativeBoolToBooleanObject (b1 != b2))) ∧
    (∀ (l r : Obj) (op : String), typeOf l ≠ typeOf r →
      evalInfixExpression op l r =
        .ok (.error ("type mismatch: " ++ typeName (typeOf l) ++ " " ++ op ++ " " ++
          typeName (typeOf r)))) := by
  refine ⟨?_, ?_, ?_⟩
  · intro l r op h1 h2 h3
    have h2r : ¬typeOf r = .integer := fun hh => h2 (h1.trans hh)
    have h3r : ¬typeOf r = .string := fun hh => h3 (h1.trans hh)
    simp [evalInfixExpression, h1, h2, h3, h2r, h3r]
  · intro b1 b2
    exact ⟨rfl, rfl⟩
  · intro l r op h
    have hint : ¬(typeOf l = .integer ∧ typeOf r = .integer) :=
      fun ⟨a, b⟩ => h (a.trans b.symm)
    have hstr : ¬(typeOf l = .string ∧ typeOf r = .string) :=
      fun ⟨a, b⟩ => h (a.trans b.symm)
    simp [evalInfixExpression, hint, hstr, h]

/-- C3 amended witness: the amended dispatch at concrete inputs - `<` on two
Nulls is an unknown-operator error, `+` on an Integer and a Boolean is a
type mismatch. -/
theorem c3_amended_same_type_infix_dispatch_witness :
    evalInfixExpression "<" .null .null = .ok (.error "unknown operator: NULL < NULL") ∧
    evalInfixExpression "+" (.integer 1) (.boolean true) =
      .ok (.error "type mismatch: INTEGER + BOOLEAN") := by
  constructor
  · have h := c3_amended_same_type_infix_dispatch.1 .null .null "<" rfl
      (by decide) (by decide)
    rw [h]
    rfl
  · have h := c3_amended_same_type_infix_dispatch.2.2 (.integer 1) (.boolean true) "+"
      (by decide)
    rw [h]
    rfl

/-- C4 counterexample: the claim says a return statement with no value
expression evaluates to Null wrapped in a ReturnValue marker and so still
terminates the enclosing block early.  In the code the no-value branch
returns a plain Null (src/evaluator.rs line 107) without wrapping, and a
block containing a bare return followed by `7` keeps evaluating and yields
Integer(7). -/
theorem c4_counterexample_bare_return_yields_plain_null :
    evalStatement 9 (.returnStatement none) envNew = .ok (.null, envNew) ∧
    Obj.null ≠ Obj.returnValue Obj.null ∧
    evalBlockStmts 9 [.returnStatement none,
      .expressionStatement (.integerLiteral 7)] envNew = .ok (.integer 7, envNew) :=
  ⟨rfl, fun h => Obj.noConfusion h, rfl⟩

/-- C4 amended: evaluating a Return statement with a value expression
evaluates it, propagates an Error result unchanged and otherwise wraps the
result in a ReturnValue marker; but a return statement with no value
expression evaluates to a plain (unwrapped) Null, and so does not terminate
the enclosing block early. -/
theorem c4_amended_return_statement_evaluation :
    (∀ (n : Nat) (e : Expression) (env : Env) (v : Obj) (env1 : Env),
      evalExpression n e env = .ok (v, env1) →
      evalStatement (n + 1) (.returnStatement (some e)) env =
        .ok (if isError v then v else .returnValue v, env1)) ∧
    (∀ (n : Nat) (env : Env),
      evalStatement (n + 1) (.returnStatement none) env = .ok (.null, env)) := by
  constructor
  · intro n e env v env1 h
    by_cases herr : isError v
    · simp [evalStatement, h, Res.bind, Bind.bind, Pure.pure, herr]
    · simp [evalStatement, h, Res.bind, Bind.bind, Pure.pure, herr]
  · intro n env
    simp [evalStatement]

/-- C4 amended witness: a return of the literal 3 wraps Integer(3) in a
ReturnValue marker. -/
theorem c4_amended_return_statement_evaluation_witness :
    evalStatement 3 (.returnStatement (some (.integerLiteral 3))) envNew =
      .ok (.returnValue (.integer 3), envNew) := by
  have h := c4_amended_return_statement_evaluation.1 2 (.integerLiteral 3) envNew
    (.integer 3) envNew rfl
  rw [h]
  rfl

/-- C5: evaluating `5 + true; 5;` yields exactly the error
"type mismatch: INTEGER + BOOLEAN" (with no parse errors), and program
evaluation checks each statement's result and stops at the first Error: for
any first statement that evaluates to an Error, the program result is that
Error regardless of the remaining statements, which are never evaluated. -/
theorem c5_error_short_circuit :
    (parseSource 99 "5 + true; 5;").2.errors = [] ∧
    resultObj (runSource 99 "5 + true; 5;") =
      some (.error "type mismatch: INTEGER + BOOLEAN") ∧
    (∀ (n : Nat) (s : Statement) (rest : List Statement) (env : Env) (v : Obj)
      (env1 : Env), evalStatement n s env = .ok (v, env1) → isError v = true →
      evalProgramStmts (n + 1) (s :: rest) env = .ok (v, env1)) := by
  refine ⟨rfl, rfl, ?_⟩
  intro n s rest env v env1 hstmt herr
  simp [evalProgramStmts, hstmt, Res.bind, herr, Bind.bind, Pure.pure]

/-- C5 witness: the short-circuit applied to the two statements of
`5 + true; 5;` - the first statement's type-mismatch error is the program
result with the trailing `5;` still pending. -/
theorem c5_error_short_circuit_witness :
    evalProgramStmts 6
      [.expressionStatement (.infixExpression (.integerLiteral 5) "+" (.boolean true)),
        .expressionStatement (.integerLiteral 5)] envNew =
      .ok (.error "type mismatch: INTEGER + BOOLEAN", envNew) :=
  c5_error_short_circuit.2.2 5
    (.expressionStatement (.infixExpression (.integerLiteral 5) "+" (.boolean true)))
    [.expressionStatement (.integerLiteral 5)] envNew
    (.error "type mismatch: INTEGER + BOOLEAN") envNew rfl rfl

/-- C6: the three precedence round-trips of the spec - each source parses
with no parse errors and prints back with the parenthesization that reflects
the precedence actually applied. -/
theorem c6_precedence_round_trip :
    (parseSource 99 "-a * b").2.errors = [] ∧
    programToString (parseSource 99 "-a * b").1 = "((-a) * b)" ∧
    (parseSource 99 "a + b * c + d / e - f").2.errors = [] ∧
    programToString (parseSource 99 "a + b * c + d / e - f").1 =
      "(((a + (b * c)) + (d / e)) - f)" ∧
    (parseSource 99 "a + add(b * c) + d").2.errors = [] ∧
    programToString (parseSource 99 "a + add(b * c) + d").1 =
      "((a + add((b * c))) + d)" :=
  ⟨rfl, rfl, rfl, rfl, rfl, rfl⟩

/-- C7: the lexer keeps underscores inside a numeric literal's token text
(`1_000` lexes as one integer token with literal "1_000"); and whenever an
integer token's literal text is not a valid 64-bit signed integer,
parse_integer_literal records exactly "could not parse <text> as integer"
and produces no expression - in particular the program `1_000` parses to no
statements with exactly that error. -/
theorem c7_underscore_integer_literal_errors :
    lexTokens 9 (lexerNew "1_000") = [⟨.int, "1_000"⟩, ⟨.eof, ""⟩] ∧
    (∀ st : PState, parseI64 st.curToken.literal = none →
      parseIntegerLiteral st =
        (none, { st with errors := st.errors ++
          ["could not parse " ++ st.curToken.literal ++ " as integer"] })) ∧
    (parseSource 99 "1_000").2.errors = ["could not parse 1_000 as integer"] ∧
    (parseSource 99 "1_000").1 = ⟨[]⟩ := by
  refine ⟨rfl, ?_, rfl, rfl⟩
  intro st h
  simp [parseIntegerLiteral, h]

/-- C7 witness: parse_integer_literal applied to a parser whose current
token is the integer token `1_000` records exactly the expected error and
yields no expression. -/
theorem c7_underscore_integer_literal_errors_witness :
    (parseIntegerLiteral (parserNew (lexerNew "1_000"))).1 = none ∧
    (parseIntegerLiteral (parserNew (lexerNew "1_000"))).2.errors =
      ["could not parse 1_000 as integer"] := by
  have h := c7_underscore_integer_literal_errors.2.1 (parserNew (lexerNew "1_000")) rfl
  rw [h]
  exact ⟨rfl, rfl⟩

/-- C8 counterexample: the claim says every input whose token stream
contains a string literal token gets a "no prefix parse function" error from
parse_program, so no such program is ever evaluated.  But in parameter
position the parser takes the current token's literal without checking its
type: `fn("s") {}` lexes with a string token, yet parses with no errors at
all, the string token becoming the parameter identifier `s` - so this
program would be evaluated. -/
theorem c8_counterexample_string_token_as_parameter :
    (lexTokens 99 (lexerNew fnParamSource)).any
      (fun t => t.tokenType == .string) = true ∧
    (parseSource 99 fnParamSource).2.errors = [] ∧
    (parseSource 99 fnParamSource).1 =
      ⟨[.expressionStatement (.functionLiteral ["s"] (.mk []))]⟩ :=
  ⟨rfl, rfl, rfl⟩

/-- C8 amended: the parser registers no prefix parse function for string
tokens, so a string token in expression position makes parse_expression
record "no prefix parse function for String found" and produce no
expression (and the parser never constructs a string-literal node, e.g.
`"hello"` parses to no statements with exactly that error); however a string
token in function-literal parameter position is consumed as a parameter
identifier with no error recorded, so a program containing a string literal
token can parse cleanly and be evaluated. -/
theorem c8_amended_no_string_prefix_fn :
    hasPrefixParseFn .string = false ∧
    (∀ (n : Nat) (prec : Precedence) (st : PState),
      st.curToken.tokenType = .string →
      parseExpression (n + 1) prec st =
        (none, { st with errors := st.errors ++
          ["no prefix parse function for String found"] })) ∧
    (parseSource 99 "\"hello\"").2.errors =
      ["no prefix parse function for String found"] ∧
    (parseSource 99 "\"hello\"").1 = ⟨[]⟩ := by
  refine ⟨rfl, ?_, rfl, rfl⟩
  intro n prec st h
  simp [parseExpression, h, hasPrefixParseFn, noPrefixParseFnError, tokenTypeDebug]

/-- C8 amended witness: parse_expression on a parser state whose current
token is a string token records exactly the no-prefix error and yields no
expression. -/
theorem c8_amended_no_string_prefix_fn_witness :
    (parseExpression 4 .lowest (parserNew (lexerNew "\"x\""))).1 = none ∧
    (parseExpression 4 .lowest (parserNew (lexerNew "\"x\""))).2.errors =
      ["no prefix parse function for String found"] := by
  have h := c8_amended_no_string_prefix_fn.2.1 3 .lowest (parserNew (lexerNew "\"x\"")) rfl
  rw [h]
  exact ⟨rfl, rfl⟩

/-- C9: integer infix division is unguarded native i64 division - whenever
both operands are Integers and the right operand is 0, the evaluator panics
(there is no division-by-zero Error value); the whole pipeline surfaces the
panic for `5 / 0`. -/
theorem c9_division_by_zero_panics :
    (∀ a : Int, evalIntegerInfixExpression "/" (.integer a) (.integer 0) =
      .panic "attempt to divide by zero") ∧
    (∀ a : Int, evalInfixExpression "/" (.integer a) (.integer 0) =
      .panic "attempt to divide by zero") ∧
    runSource 30 "5 / 0" = .panic "attempt to divide by zero" :=
  ⟨fun _ => rfl, fun _ => rfl, rfl⟩

/-- C10: when a top-level statement produces a ReturnValue marker,
eval_program stops and returns the unwrapping of the wrapped value, and that
unwrapping rebuilds only Integers, Booleans and Null - a wrapped value of
any other type (String, Function, Builtin, a nested ReturnValue) turns the
whole program's result into Null. -/
theorem c10_top_level_return_unwrap :
    (∀ (n : Nat) (s : Statement) (rest : List Statement) (env : Env) (w : Obj)
      (env1 : Env), evalStatement n s env = .ok (.returnValue w, env1) →
      evalProgramStmts (n + 1) (s :: rest) env =
        .ok (unwrapProgramReturn w, env1)) ∧
    (∀ v : Int, unwrapProgramReturn (.integer v) = .integer v) ∧
    (∀ b : Bool, unwrapProgramReturn (.boolean b) = .boolean b) ∧
    unwrapProgramReturn .null = .null ∧
    (∀ w : Obj, typeOf w ≠ .integer → typeOf w ≠ .boolean → typeOf w ≠ .null →
      unwrapProgramReturn w = .null) := by
  refine ⟨?_, fun _ => rfl, fun _ => rfl, rfl, ?_⟩
  · intro n s rest env w env1 hstmt
    simp [evalProgramStmts, hstmt, Res.bind, Bind.bind, Pure.pure, isError, typeOf]
  · intro w h1 h2 h3
    cases w <;> simp_all [typeOf, unwrapProgramReturn]

/-- C10 witness: a top-level `return "s";` (a wrapped String) makes the
program evaluate to Null, with the trailing statement discarded. -/
theorem c10_top_level_return_unwrap_witness :
    evalProgramStmts 3 [.returnStatement (some (.stringLiteral "s")),
      .expressionStatement (.integerLiteral 1)] envNew = .ok (.null, envNew) ∧
    unwrapProgramReturn (.string "s") = .null := by
  have h := c10_top_level_return_unwrap.1 2
    (.returnStatement (some (.stringLiteral "s")))
    [.expressionStatement (.integerLiteral 1)] envNew (.string "s") envNew rfl
  exact ⟨h, c10_top_level_return_unwrap.2.2.2.2 (.string "s")
    (by decide) (by decide) (by decide)⟩
